import Mathlib

set_option autoImplicit false

namespace ChatbotRag

/-!
Verification development for the RAG pipeline of the mental-health chat
assistant backend (modules `src/core/safety.py`, `src/core/semantic_cache.py`,
`src/core/vector_store.py`, `src/services/rag_service.py`).

Modelling conventions:
* Python strings are Lean `String` / `List Char`; Python float arithmetic is
  modelled by exact rational arithmetic over `ℚ`.
* External effectful calls (the Chroma document store, the Gemini embedding
  and generation capability, Redis) are modelled as explicit inputs: either
  `Except String α` values describing the outcome of one call, or functions
  describing the outcome per argument.
* The mutable attributes of `RAGService` and the module-level globals become
  explicit state records threaded through the functions.
-/

/-! ### Safety gate (`src/core/safety.py`, `check_sos_keywords`) -/

/-- Python's `\w` word-character class as exercised by this code base:
ASCII alphanumerics, underscore, and all non-ASCII code points (the
configured SOS keywords use Vietnamese letters, which are Unicode word
characters). -/
def isWordChar (c : Char) : Bool :=
  c.isAlphanum || c == '_' || decide (128 ≤ c.toNat)

/-- Word-character test on an optional character; the absence of a character
(start or end of the string) counts as a non-word character, matching the
semantics of the `\b` assertion of Python `re`. -/
def optIsWord : Option Char → Bool
  | some c => isWordChar c
  | none => false

/-- Python `re` `\b` assertion between a left context character and a right
context character: a boundary holds iff exactly one side is a word
character. -/
def wordBoundary (l r : Option Char) : Bool :=
  optIsWord l != optIsWord r

/-- Lowercasing of a character list, modelling Python `str.lower()`. -/
def lowerChars (s : List Char) : List Char :=
  s.map Char.toLower

/-- Test whether the pattern `\b <kw escaped> \b` of `check_sos_keywords`
matches at position `i` of `text`: the keyword is a literal substring at
`i` (the keyword is passed through `re.escape`, so it is matched literally)
and the `\b` assertion holds on both sides.  For an empty keyword both
assertions collapse to the single boundary at position `i`. -/
def reMatchWWAt (kw text : List Char) (i : Nat) : Bool :=
  kw.isPrefixOf (text.drop i) &&
  wordBoundary (text.take i).getLast? (kw.head?.orElse fun _ => (text.drop i).head?) &&
  wordBoundary (kw.getLast?.orElse fun _ => (text.take i).getLast?) ((text.drop i).drop kw.length).head?

/-- Result of `re.search(r'\b' + re.escape(kw) + r'\b', text)` viewed as a
Boolean: the pattern matches at some position of `text`. -/
def reSearchWW (kw text : List Char) : Bool :=
  (List.range (text.length + 1)).any (reMatchWWAt kw text)

/-- The crisis-detection predicate `check_sos_keywords(text, keywords)` of
`src/core/safety.py`: for each keyword the pattern
`r'\b' + re.escape(keyword.lower()) + r'\b'` is searched in `text.lower()`;
the function returns `True` on the first keyword that matches. -/
def check_sos_keywords (text : String) (keywords : List String) : Bool :=
  keywords.any fun kw => reSearchWW (lowerChars kw.data) (lowerChars text.data)

/-- Specification-side predicate, following the words of the claim: `text`
contains `kw` as a whole word at position `i`, i.e. `kw` occurs literally at
`i` and the neighbouring characters (when they exist) are non-word
characters. -/
def wholeWordAt (kw text : List Char) (i : Nat) : Bool :=
  kw.isPrefixOf (text.drop i) &&
  !optIsWord (text.take i).getLast? &&
  !optIsWord ((text.drop i).drop kw.length).head?

/-- Specification-side predicate: `text` contains `kw` as a whole word
(an occurrence surrounded by non-word characters or by the ends of the
text). -/
def containsWholeWord (kw text : List Char) : Bool :=
  (List.range (text.length + 1)).any (wholeWordAt kw text)

/-- Specification-side rendering of the claimed contract of the safety gate:
some keyword of `keywords` occurs in `text` as a whole word, matched
case-insensitively. -/
def checkSosSpec (text : String) (keywords : List String) : Bool :=
  keywords.any fun kw => containsWholeWord (lowerChars kw.data) (lowerChars text.data)

/-! ### Shared list utilities for the RAG service model -/

/-- Stable insertion of `x` into `l`: `x` is placed before the first element
`y` with `le x y = true`.  With `le x y := key y ≤ key x` this yields the
stable descending sort used by `list.sort(key=..., reverse=True)`; with
`le x y := key x ≤ key y` it yields the stable ascending sort of Python
`sorted(..., key=...)`. -/
def insertBy {α : Type} (le : α → α → Bool) (x : α) : List α → List α
  | [] => [x]
  | y :: ys => if le x y then x :: y :: ys else y :: insertBy le x ys

/-- Stable insertion sort; Python's `list.sort` / `sorted` are stable, and a
stable sort is uniquely determined by its key order, so insertion sort is an
exact model. -/
def sortBy {α : Type} (le : α → α → Bool) : List α → List α
  | [] => []
  | x :: xs => insertBy le x (sortBy le xs)

/-- Splitting of a character list on runs of whitespace, dropping empty
pieces: Python `str.split()` with no separator argument. -/
def splitWsAux : List Char → List Char → List (List Char)
  | [], acc => if acc.isEmpty then [] else [acc.reverse]
  | c :: rest, acc =>
    if c.isWhitespace then
      if acc.isEmpty then splitWsAux rest [] else acc.reverse :: splitWsAux rest []
    else splitWsAux rest (c :: acc)

/-- Python `s.split()` on a string. -/
def pySplit (s : String) : List String :=
  (splitWsAux s.data []).map String.mk

/-- Python `s.lower()` on a string. -/
def strLower (s : String) : String :=
  String.mk (lowerChars s.data)

/-- Python `max` over a list of numbers (total because all call sites guard
against the empty list, on which Python raises). -/
def pyMax : List ℚ → ℚ
  | [] => 0
  | x :: xs => xs.foldl max x

/-! ### RAG service data model (`src/services/rag_service.py`) -/

/-- Chunk metadata as stored in the document store; `source` and `page` may
be absent from the metadata dictionary, in which case `hybrid_search`
substitutes `'Unknown'` and `0` via `dict.get`. -/
structure Meta where
  source : Option String
  page : Option Int
deriving DecidableEq, Repr

/-- The `SearchResult` dataclass of `rag_service.py`. -/
structure SearchResult where
  content : String
  source : String
  page : Int
  distance : ℚ
  score : Option ℚ
deriving DecidableEq, Repr

/-- Metadata filter argument (`filter_metadata`), a Python dict modelled as
an association list. -/
def MFilter := Option (List (String × String))

/-- Interface of a Chroma collection handle as used by `hybrid_search`:
`get` fetches all documents and metadatas matching a filter, `query` runs a
nearest-neighbour query returning `(document, distance)` pairs.  Either
operation may fail with a raised error, modelled by `Except`. -/
structure Collection where
  get : MFilter → Except String (List String × List Meta)
  query : List ℚ → Nat → MFilter → Except String (List (String × ℚ))

/-- Mutable BM25-cache attributes of `RAGService`: `_bm25_cache` (the BM25
index, represented by the tokenized corpus it was built from, since
`BM25Okapi(tokenized_corpus)` is a pure function of that corpus),
`_bm25_cache_time`, `_corpus_cache`, and `_corpus_metadatas`. -/
structure RAGState where
  bm25Cache : Option (List (List String))
  bm25CacheTime : Option ℚ
  corpusCache : Option (List String)
  corpusMetadatas : Option (List Meta)
deriving DecidableEq, Repr

/-- The fresh service state produced by `RAGService.__init__`. -/
def initialRAGState : RAGState :=
  { bm25Cache := none, bm25CacheTime := none,
    corpusCache := none, corpusMetadatas := none }

/-- The `_bm25_cache_ttl` attribute (300 seconds). -/
def bm25CacheTTL : ℚ := 300

/-- The cache-validity test of `_get_bm25_index`: the cache and its
timestamp are set and `current_time - self._bm25_cache_time <
self._bm25_cache_ttl`.  Note that the filter argument plays no part. -/
def cacheValid (st : RAGState) (now : ℚ) : Bool :=
  match st.bm25Cache, st.bm25CacheTime with
  | some _, some t => decide (now - t < bm25CacheTTL)
  | _, _ => false

/-- Tokenization used when building the BM25 index:
`[doc.lower().split() for doc in documents]`. -/
def tokenizeCorpus (documents : List String) : List (List String) :=
  documents.map fun d => pySplit (strLower d)

/-- Rebuild branch of `_get_bm25_index`: fetch all documents and metadatas
from the collection, return `(None, [], [])` on an empty corpus (leaving the
cache untouched), otherwise build the BM25 index and fill all four cache
attributes with the current time. -/
def rebuildBM25 (col : Collection) (filt : MFilter) (st : RAGState) (now : ℚ) :
    Except String ((Option (List (List String)) × List String × List Meta) × RAGState) :=
  match col.get filt with
  | .error e => .error e
  | .ok (documents, metadatas) =>
    if documents.isEmpty then .ok ((none, [], []), st)
    else
      let tokenized := tokenizeCorpus documents
      .ok ((some tokenized, documents, metadatas),
           { bm25Cache := some tokenized, bm25CacheTime := some now,
             corpusCache := some documents, corpusMetadatas := some metadatas })

/-- The `_get_bm25_index` method: serve the cached index, documents and
metadatas while the cache is valid (`self._corpus_cache or []` turns an
unset corpus into `[]`), otherwise rebuild from the store. -/
def getBM25Index (col : Collection) (filt : MFilter) (st : RAGState) (now : ℚ) :
    Except String ((Option (List (List String)) × List String × List Meta) × RAGState) :=
  if cacheValid st now then
    .ok ((st.bm25Cache, st.corpusCache.getD [], st.corpusMetadatas.getD []), st)
  else rebuildBM25 col filt st now

/-- The `invalidate_bm25_cache` method: reset all four cache attributes. -/
def invalidateBM25Cache (_st : RAGState) : RAGState :=
  { bm25Cache := none, bm25CacheTime := none,
    corpusCache := none, corpusMetadatas := none }

/-! ### Hybrid search (`RAGService.hybrid_search`) -/

/-- One step of building the Python dict `vector_distance_map`: assign the
similarity `1 - distance / 2` to the key `doc`, overwriting any earlier
entry for the same document text (dict assignment semantics). -/
def vecMapStep (m : String → ℚ) (p : String × ℚ) : String → ℚ :=
  fun d => if d = p.1 then 1 - p.2 / 2 else m d

/-- The dict `vector_distance_map` with its `.get(doc, 0)` lookup: built by
iterating over the vector results in order; absent documents score 0. -/
def buildVecMap (vrs : List (String × ℚ)) : String → ℚ :=
  vrs.foldl vecMapStep (fun _ => 0)

/-- Score-combination loop of `hybrid_search`: for every corpus chunk `i`
take the metadata (`metadatas[i] if metadatas else {}`), the normalized BM25
score, and the vector similarity of the chunk text under `vecSim`, and build
a `SearchResult` with `hybrid_score = alpha * vector_score + (1 - alpha) *
bm25_score` and `distance = 1 - hybrid_score`. -/
def combineScores (documents : List String) (metadatas : List Meta)
    (bm25Norm : List ℚ) (vecSim : String → ℚ) (alpha : ℚ) : List SearchResult :=
  (List.range documents.length).map fun i =>
    let doc := documents.getD i ""
    let metadata := if metadatas.isEmpty then ⟨none, none⟩ else metadatas.getD i ⟨none, none⟩
    let bm25Score := bm25Norm.getD i 0
    let vectorScore := vecSim doc
    let hybridScore := alpha * vectorScore + (1 - alpha) * bm25Score
    { content := doc,
      source := metadata.source.getD "Unknown",
      page := metadata.page.getD 0,
      distance := 1 - hybridScore,
      score := some hybridScore }

/-- Sort key of `combined_results.sort(key=lambda x: x.score if x.score else 0,
reverse=True)`: a `None` score — and, vacuously, a zero score — falls back
to `0`. -/
def pyScoreKey (r : SearchResult) : ℚ :=
  match r.score with
  | some s => if s = 0 then 0 else s
  | none => 0

/-- Stable descending order on the Python sort key, as produced by
`list.sort(key=..., reverse=True)`. -/
def scoreDescLe (a b : SearchResult) : Bool :=
  decide (pyScoreKey b ≤ pyScoreKey a)

/-- Body of the `hybrid_search` method once the collection handle is
obtained.  Inputs standing for the external world: `scoresFn` is the (pure)
`BM25Okapi.get_scores` computation of the `rank_bm25` library, as a
function of the tokenized corpus the index was built from and the tokenized
query; `genEmbed` is the outcome of `generate_embedding` (used only when no
precomputed `query_embedding` is passed).  Any raised store error is caught
by the `except` clauses and turned into `[]`; the method returns the result
list together with the service state left behind (the BM25 cache survives a
later exception, as `self` is mutated in place). -/
def hybridSearchOk (scoresFn : List (List String) → List String → List ℚ)
    (col : Collection) (st : RAGState) (now : ℚ)
    (query : String) (topK : Nat) (filt : MFilter) (alpha : ℚ)
    (queryEmbedding : Option (List ℚ)) (genEmbed : Except String (List ℚ)) :
    List SearchResult × RAGState :=
  match getBM25Index col filt st now with
  | .error _ => ([], st)
  | .ok ((bm25Opt, documents, metadatas), st1) =>
      match bm25Opt with
      | none => ([], st1)
      | some bm25 =>
        if documents.isEmpty then ([], st1)
        else
          let tokenizedQuery := pySplit (strLower query)
          let bm25Scores := scoresFn bm25 tokenizedQuery
          if bm25Scores.isEmpty then ([], st1)
          else
            let maxB := pyMax bm25Scores
            let maxBm25 := if 0 < maxB then maxB else 1
            let bm25Norm := bm25Scores.map (· / maxBm25)
            match (match queryEmbedding with
                   | some e => Except.ok e
                   | none => genEmbed) with
            | .error _ => ([], st1)
            | .ok qe =>
              match col.query qe (min (topK * 2) documents.length) filt with
              | .error _ => ([], st1)
              | .ok vrs =>
                let combined := combineScores documents metadatas bm25Norm (buildVecMap vrs) alpha
                ((sortBy scoreDescLe combined).take topK, st1)

/-- The `hybrid_search` method; see `hybridSearchOk` for the part after the
collection handle is obtained.  A failing `get_collection` is caught by the
`except` clauses and turned into `[]`. -/
def hybridSearch (scoresFn : List (List String) → List String → List ℚ)
    (colRes : Except String Collection) (st : RAGState) (now : ℚ)
    (query : String) (topK : Nat) (filt : MFilter) (alpha : ℚ)
    (queryEmbedding : Option (List ℚ)) (genEmbed : Except String (List ℚ)) :
    List SearchResult × RAGState :=
  match colRes with
  | .error _ => ([], st)
  | .ok col =>
    hybridSearchOk scoresFn col st now query topK filt alpha queryEmbedding genEmbed

/-- Lookup of a document's distance among the vector results (first match;
the vector store returns each chunk at most once, so the choice of match is
immaterial under that hypothesis). -/
def lookupSim : List (String × ℚ) → String → Option ℚ
  | [], _ => none
  | p :: t, d => if d = p.1 then some p.2 else lookupSim t d

/-- Specification-side vector similarity, following the words of the claim:
`1 - distance / 2` for chunks in the vector result set and `0` for all
other chunks. -/
def vecSimSpec (vrs : List (String × ℚ)) (d : String) : ℚ :=
  match lookupSim vrs d with
  | some dist => 1 - dist / 2
  | none => 0

/-- Specification-side ranking, following the words of the claim: normalize
the lexical scores to `[0,1]` by dividing by the maximum lexical score (max
0 treated as 1), fuse with `alpha * vector + (1 - alpha) * lexical` over
every chunk of the full corpus, sort descending by fused score and return
the first `topK`. -/
def hybridSearchSpec (documents : List String) (metadatas : List Meta)
    (bm25Scores : List ℚ) (vrs : List (String × ℚ)) (alpha : ℚ) (topK : Nat) :
    List SearchResult :=
  let maxScore := pyMax bm25Scores
  let denom := if maxScore = 0 then 1 else maxScore
  let lexical := bm25Scores.map (· / denom)
  let fused := combineScores documents metadatas lexical (vecSimSpec vrs) alpha
  (sortBy scoreDescLe fused).take topK

/-! ### Reranker and context assembler -/

/-- Ascending stable order on `distance`, as used by
`sorted(results, key=lambda x: x.distance)`. -/
def distAscLe (a b : SearchResult) : Bool :=
  decide (a.distance ≤ b.distance)

/-- The `rerank_results` method: return `[]` on no results, otherwise sort
ascending by distance and truncate to `topK`. -/
def rerankResults (results : List SearchResult) (topK : Nat) : List SearchResult :=
  if results.isEmpty then [] else (sortBy distAscLe results).take topK

/-- The indexed context block emitted by `build_context` for the `i`-th
result (1-based): `f"[{i}] {result.content}\n(Nguồn: {result.source}, trang
{result.page})"`. -/
def contextBlock (i : Nat) (r : SearchResult) : String :=
  "[" ++ toString i ++ "] " ++ r.content ++ "\n(Nguồn: " ++ r.source ++
    ", trang " ++ toString r.page ++ ")"

/-- Snippet construction of `build_context`:
`result.content[:200] + "..." if len(result.content) > 200 else
result.content`. -/
def snippetOf (content : String) : String :=
  if 200 < content.length then String.mk (content.data.take 200) ++ "..." else content

/-- One entry of the sources list built by `build_context`. -/
structure SourceInfo where
  title : String
  page : Int
  content_snippet : String
deriving DecidableEq, Repr

/-- Sources-list entry for one result. -/
def sourceOf (r : SearchResult) : SourceInfo :=
  { title := r.source, page := r.page, content_snippet := snippetOf r.content }

/-- Accumulation loop of `build_context` (`for i, result in
enumerate(results, 1)`), collecting context blocks and source entries in one
pass. -/
def buildContextAux : Nat → List SearchResult → List String × List SourceInfo
  | _, [] => ([], [])
  | i, r :: rest =>
    let tail := buildContextAux (i + 1) rest
    (contextBlock i r :: tail.1, sourceOf r :: tail.2)

/-- The `build_context` method: empty input yields `("", [])`; otherwise the
indexed blocks are joined with blank lines and paired with the sources
list. -/
def buildContext (results : List SearchResult) : String × List SourceInfo :=
  if results.isEmpty then ("", [])
  else
    let parts := buildContextAux 1 results
    (String.intercalate "\n\n" parts.1, parts.2)

/-- Context block in the exact shape quoted by the claim, with the English
labels `Source` and `page`. -/
def contextBlockEN (i : Nat) (r : SearchResult) : String :=
  "[" ++ toString i ++ "] " ++ r.content ++ "\n(Source: " ++ r.source ++
    ", page " ++ toString r.page ++ ")"

/-- Specification-side `build_context` following the claim verbatim: the
`i`-th block is `"[i] <chunk text>\n(Source: <source>, page <page>)"`,
blocks joined with blank lines, sources built in parallel. -/
def buildContextSpecEN (results : List SearchResult) : String × List SourceInfo :=
  (String.intercalate "\n\n" ((results.enumFrom 1).map fun p => contextBlockEN p.1 p.2),
   results.map sourceOf)

/-- Specification-side `build_context` with the labels the code actually
emits (`Nguồn` / `trang`). -/
def buildContextSpecVN (results : List SearchResult) : String × List SourceInfo :=
  (String.intercalate "\n\n" ((results.enumFrom 1).map fun p => contextBlock p.1 p.2),
   results.map sourceOf)

/-! ### Response generator (`generate_response`, `generate_response_stream`) -/

/-- ASCII letter class `[a-zA-Z]` of the first sanitization pattern. -/
def isAsciiLetter (c : Char) : Bool :=
  c.isAlpha

/-- Scan to the first `'>'`; on success return the remainder after it.  This
realises the tail `[a-zA-Z0-9]*[^>]*/?>` of the first pattern: the two
starred classes exclude `'>'`, so the match extends exactly to the first
`'>'` and fails if none exists. -/
def scanToGt : List Char → Option (List Char)
  | [] => none
  | c :: rest => if c = '>' then some rest else scanToGt rest

/-- Leftmost match of the first sanitization pattern
`r'</?[a-zA-Z][a-zA-Z0-9]*[^>]*/?>'` at the head of the list; on success
return the remainder after the matched tag. -/
def tagMatch1 : List Char → Option (List Char)
  | '<' :: rest =>
    let rest1 := match rest with
      | '/' :: r => r
      | r => r
    match rest1 with
    | c :: r2 => if isAsciiLetter c then scanToGt r2 else none
    | [] => none
  | _ => none

/-- Match of the second sanitization pattern `r'</?\s*\w+\s*>'` at the head
of the list: `'<'`, optional `'/'`, whitespace, at least one word
character, whitespace, `'>'`.  The character classes are pairwise disjoint
and exclude `'>'`, so greedy matching needs no backtracking. -/
def tagMatch2 : List Char → Option (List Char)
  | '<' :: rest =>
    let rest1 := match rest with
      | '/' :: r => r
      | r => r
    let rest2 := rest1.dropWhile Char.isWhitespace
    let wordRun := rest2.takeWhile isWordChar
    let rest3 := rest2.dropWhile isWordChar
    if wordRun.isEmpty then none
    else
      match rest3.dropWhile Char.isWhitespace with
      | '>' :: r => some r
      | _ => none
  | _ => none

/-- Scanning phase of `re.sub(pattern, '', s)`: walk left to right; where
the pattern matches, drop the match and continue after it, otherwise keep
the character.  The fuel argument bounds the number of steps; every step
consumes at least one character, so `s.length + 1` steps always suffice. -/
def reSubScan (m : List Char → Option (List Char)) : Nat → List Char → List Char
  | 0, s => s
  | _ + 1, [] => []
  | fuel + 1, c :: rest =>
    match m (c :: rest) with
    | some r => reSubScan m fuel r
    | none => c :: reSubScan m fuel rest

/-- Python `re.sub(pattern, '', s)` for one of the two tag patterns. -/
def reSubDel (m : List Char → Option (List Char)) (s : List Char) : List Char :=
  reSubScan m (s.length + 1) s

/-- Python `str.strip()`: drop whitespace from both ends. -/
def pyStrip (s : List Char) : List Char :=
  ((s.dropWhile Char.isWhitespace).reverse.dropWhile Char.isWhitespace).reverse

/-- Sanitization applied by `generate_response` to the model output: first
substitution with the standard-tag pattern, second substitution with the
malformed-tag pattern, then `strip()`. -/
def stripTags (s : String) : String :=
  String.mk (pyStrip (reSubDel tagMatch2 (reSubDel tagMatch1 s.data)))

/-- Test whether some suffix of `s` starts with a match of the second
(simpler) tag pattern, i.e. whether `s` still contains an HTML-like tag
substring by the code's own definition. -/
def containsTag (s : String) : Bool :=
  (List.range s.length).any fun i => (tagMatch2 (s.data.drop i)).isSome

/-- Fixed apology returned when every candidate model fails (also the
message a raised pipeline error is converted to in the generator). -/
def apologyMsg : String :=
  "Xin lỗi, tôi gặp sự cố khi xử lý câu hỏi của bạn. Vui lòng thử lại sau."

/-- Candidate model identifiers of `generate_response`, in priority
order. -/
def candidateModels : List String :=
  ["gemini-2.0-flash-exp", "gemini-flash-latest", "gemini-1.5-flash", "gemini-pro"]

/-- Candidate model identifiers of `generate_response_stream`. -/
def streamCandidateModels : List String :=
  ["gemini-2.0-flash-exp", "gemini-flash-latest", "gemini-1.5-flash"]

/-- Reordering `[P2]` applied to the candidate list: when a last working
model is remembered and belongs to the list, `list.remove` + `insert(0, ...)`
moves it to the front. -/
def prioritize (lastWorking : Option String) (cands : List String) : List String :=
  match lastWorking with
  | some m => if m ∈ cands then m :: cands.erase m else cands
  | none => cands

/-- Fallback loop over the candidate models: return the first model whose
generation call succeeds, together with its raw output text. -/
def tryModels (outcome : String → Except String String) :
    List String → Option (String × String)
  | [] => none
  | m :: rest =>
    match outcome m with
    | .ok t => some (m, t)
    | .error _ => tryModels outcome rest

/-- The `generate_response` method, given the per-model outcome of
`model.generate_content` (`outcome`) and the module-level
`_last_working_model` (`lastWorking`).  The prompt assembly is not
reproduced: the model outcome function abstracts the external generation
call, and no claim depends on the prompt text.  Returns the response text
and the new `_last_working_model`. -/
def generateResponse (outcome : String → Except String String)
    (lastWorking : Option String) : String × Option String :=
  match tryModels outcome (prioritize lastWorking candidateModels) with
  | some (m, t) => (stripTags t, some m)
  | none => (apologyMsg, lastWorking)

/-- Fallback loop of the streaming variant: the first model whose
`generate_content(..., stream=True)` call connects provides the fragment
iterator. -/
def tryStreamModels (outcome : String → Except String (List String)) :
    List String → Option (List String)
  | [] => none
  | m :: rest =>
    match outcome m with
    | .ok frags => some frags
    | .error _ => tryStreamModels outcome rest

/-- The `generate_response_stream` method, given the per-model outcome of
the streaming call (the list of `chunk.text` values of the iterator).  When
no model connects, the apology is yielded as the single fragment; otherwise
each truthy (non-empty) chunk text is yielded unchanged — the streaming
path applies no tag sanitization. -/
def generateResponseStream (outcome : String → Except String (List String)) :
    List String :=
  match tryStreamModels outcome streamCandidateModels with
  | none => [apologyMsg]
  | some frags => frags.filter fun s => s ≠ ""

/-! ### SHA-256 (FIPS 180-4), used by `SemanticCache._generate_cache_key`.
Words are `Nat` values reduced modulo `2^32`; bytes are `Nat` values below
256. -/

/-- Modulus of a 32-bit word. -/
def w32 : Nat := 4294967296

/-- Right rotation of a 32-bit word. -/
def rotr32 (x n : Nat) : Nat :=
  ((x >>> n) ||| (x <<< (32 - n))) % w32

/-- Choice function `Ch(x,y,z)` of SHA-256. -/
def shaCh (x y z : Nat) : Nat :=
  (x &&& y) ^^^ ((x ^^^ 4294967295) &&& z)

/-- Majority function `Maj(x,y,z)` of SHA-256. -/
def shaMaj (x y z : Nat) : Nat :=
  (x &&& y) ^^^ (x &&& z) ^^^ (y &&& z)

/-- Big sigma-0 of SHA-256. -/
def bigSigma0 (x : Nat) : Nat := rotr32 x 2 ^^^ rotr32 x 13 ^^^ rotr32 x 22

/-- Big sigma-1 of SHA-256. -/
def bigSigma1 (x : Nat) : Nat := rotr32 x 6 ^^^ rotr32 x 11 ^^^ rotr32 x 25

/-- Small sigma-0 of SHA-256. -/
def smallSigma0 (x : Nat) : Nat := rotr32 x 7 ^^^ rotr32 x 18 ^^^ (x >>> 3)

/-- Small sigma-1 of SHA-256. -/
def smallSigma1 (x : Nat) : Nat := rotr32 x 17 ^^^ rotr32 x 19 ^^^ (x >>> 10)

/-- Round constants of SHA-256 (FIPS 180-4 section 4.2.2, written in
decimal). -/
def shaK : List Nat :=
  [1116352408, 1899447441, 3049323471, 3921009573, 961987163,
   1508970993, 2453635748, 2870763221, 3624381080, 310598401,
   607225278, 1426881987, 1925078388, 2162078206, 2614888103,
   3248222580, 3835390401, 4022224774, 264347078, 604807628,
   770255983, 1249150122, 1555081692, 1996064986, 2554220882,
   2821834349, 2952996808, 3210313671, 3336571891, 3584528711,
   113926993, 338241895, 666307205, 773529912, 1294757372,
   1396182291, 1695183700, 1986661051, 2177026350, 2456956037,
   2730485921, 2820302411, 3259730800, 3345764771, 3516065817,
   3600352804, 4094571909, 275423344, 430227734, 506948616,
   659060556, 883997877, 958139571, 1322822218, 1537002063,
   1747873779, 1955562222, 2024104815, 2227730452, 2361852424,
   2428436474, 2756734187, 3204031479, 3329325298]

/-- Initial hash state of SHA-256 (FIPS 180-4 section 5.3.3, written in
decimal). -/
def shaH0 : List Nat :=
  [1779033703, 3144134277, 1013904242, 2773480762,
   1359893119, 2600822924, 528734635, 1541459225]

/-- Big-endian byte rendering of a value on `n` bytes. -/
def toBytesBE (n v : Nat) : List Nat :=
  (List.range n).map fun i => (v >>> ((n - 1 - i) * 8)) % 256

/-- SHA-256 message padding: append `0x80`, zero bytes up to 56 modulo 64,
and the bit length on 8 bytes. -/
def shaPad (msg : List Nat) : List Nat :=
  let z := (119 - msg.length % 64) % 64
  msg ++ [0x80] ++ List.replicate z 0 ++ toBytesBE 8 (msg.length * 8)

/-- Splitting of the padded message into 64-byte blocks (fuelled; the fuel
`length + 1` always suffices since each step consumes 64 bytes). -/
def toBlocksAux : Nat → List Nat → List (List Nat)
  | 0, _ => []
  | _ + 1, [] => []
  | fuel + 1, l => l.take 64 :: toBlocksAux fuel (l.drop 64)

/-- 64-byte blocks of a byte list. -/
def toBlocks (l : List Nat) : List (List Nat) :=
  toBlocksAux (l.length + 1) l

/-- Big-endian 32-bit words of a byte list. -/
def bytesToWords : List Nat → List Nat
  | b0 :: b1 :: b2 :: b3 :: rest =>
    (((b0 * 256 + b1) * 256 + b2) * 256 + b3) :: bytesToWords rest
  | _ => []

/-- Message-schedule extension: append `fuel` further words, each
`σ1(w[i-2]) + w[i-7] + σ0(w[i-15]) + w[i-16]` modulo `2^32`. -/
def extendW : Nat → List Nat → List Nat
  | 0, w => w
  | fuel + 1, w =>
    let n := w.length
    let nw := (smallSigma1 (w.getD (n - 2) 0) + w.getD (n - 7) 0 +
               smallSigma0 (w.getD (n - 15) 0) + w.getD (n - 16) 0) % w32
    extendW fuel (w ++ [nw])

/-- One compression round on the state `[a,b,c,d,e,f,g,h]`. -/
def compressRound (st : List Nat) (ki wi : Nat) : List Nat :=
  match st with
  | [a, b, c, d, e, f, g, h] =>
    let t1 := (h + bigSigma1 e + shaCh e f g + ki + wi) % w32
    let t2 := (bigSigma0 a + shaMaj a b c) % w32
    [(t1 + t2) % w32, a, b, c, (d + t1) % w32, e, f, g]
  | other => other

/-- Compression of one 64-byte block into the running hash state. -/
def compressBlock (h : List Nat) (block : List Nat) : List Nat :=
  let w := extendW 48 (bytesToWords block)
  let st := (shaK.zip w).foldl (fun s p => compressRound s p.1 p.2) h
  (h.zip st).map fun p => (p.1 + p.2) % w32

/-- SHA-256 of a byte list, as the list of eight 32-bit hash words. -/
def sha256 (msg : List Nat) : List Nat :=
  (toBlocks (shaPad msg)).foldl compressBlock shaH0

/-- Lower-case hexadecimal digit. -/
def hexDigit (n : Nat) : Char :=
  if n < 10 then Char.ofNat (48 + n) else Char.ofNat (87 + n)

/-- Lower-case hexadecimal rendering of one 32-bit word. -/
def wordToHex (v : Nat) : List Char :=
  (List.range 8).map fun i => hexDigit ((v >>> ((7 - i) * 4)) % 16)

/-- The `hashlib.sha256(...).hexdigest()` string of a byte list. -/
def hexDigest (msg : List Nat) : String :=
  String.mk ((sha256 msg).map wordToHex).flatten

/-! ### Semantic cache (`src/core/semantic_cache.py`) -/

/-- Serialization `json.dumps(query_embedding, sort_keys=True)` of the
embedding vector (`sort_keys` is inert on a list).  The decimal rendering
of Python floats is modelled by the canonical rendering of the exact
rationals standing in for them; the serialization stays a deterministic,
injective-per-vector function of the embedding, which is all the key
derivation relies on. -/
def serializeEmbedding (e : List ℚ) : String :=
  "[" ++ String.intercalate ", " (e.map toString) ++ "]"

/-- UTF-8 encoding `.encode('utf-8')` of an ASCII serialization (the
serialized embedding is plain ASCII, so code points are bytes). -/
def encodeAscii (s : String) : List Nat :=
  s.data.map Char.toNat

/-- The `_generate_cache_key` method: `"rag_cache:"` followed by the first
16 characters of the SHA-256 hexdigest of the serialized embedding. -/
def generateCacheKey (e : List ℚ) : String :=
  "rag_cache:" ++ String.mk ((hexDigest (encodeAscii (serializeEmbedding e))).data.take 16)

/-- Payload stored under a cache key (the dict
`{'response': ..., 'sources': ...}`; the JSON round trip through Redis is
modelled as storing the structured payload). -/
structure CachePayload where
  response : String
  sources : List SourceInfo
deriving DecidableEq, Repr

/-- Redis key space as seen through `setex`/`get`: each key maps to a
payload and its absolute expiry time. -/
def RedisStore := String → Option (CachePayload × ℚ)

/-- TTL of the semantic cache (3600 seconds, set in `__init__`). -/
def semanticCacheTTL : ℚ := 3600

/-- The `SemanticCache.set` method: `setex(key, ttl, payload)` stores the
payload under the derived key with expiry `now + ttl`. -/
def semanticCacheSet (r : RedisStore) (e : List ℚ) (response : String)
    (sources : List SourceInfo) (now : ℚ) : RedisStore :=
  fun k =>
    if k = generateCacheKey e then some (⟨response, sources⟩, now + semanticCacheTTL)
    else r k

/-- The `SemanticCache.get` method: read the derived key; a live entry
yields `(data['response'], data['sources'])`, an absent or expired entry is
a miss. -/
def semanticCacheGet (r : RedisStore) (e : List ℚ) (now : ℚ) :
    Option (String × List SourceInfo) :=
  match r (generateCacheKey e) with
  | some (payload, expiry) =>
    if now < expiry then some (payload.response, payload.sources) else none
  | none => none

/-! ### Pipeline orchestration (`RAGService.rag_query`) -/

/-- Fixed insufficient-knowledge message returned when retrieval yields no
context. -/
def insufficientMsg : String :=
  "Xin lỗi, tôi không tìm thấy thông tin phù hợp trong cơ sở kiến thức của mình để trả lời câu hỏi này.\n\nTôi khuyến khích bạn:\n- Liên hệ với chuyên gia tâm lý để được tư vấn trực tiếp\n- Đặt câu hỏi khác hoặc diễn đạt lại câu hỏi\n- Chia sẻ thêm về tình huống của bạn để tôi có thể hỗ trợ tốt hơn"

/-- Fixed apology the top-level `except` clause of `rag_query` converts any
pipeline exception into. -/
def pipelineErrorMsg : String :=
  "Xin lỗi, có lỗi xảy ra. Vui lòng thử lại."

/-- External-world inputs of one `rag_query` call: the outcome of
`generate_embedding`, the outcome of `semantic_cache.get` (`None` also
models the internally-caught Redis failure), the outcome of
`get_collection`, the BM25 scoring function of the `rank_bm25` library, and
the per-model outcome of `model.generate_content`. -/
structure RagQueryEnv where
  embedRes : Except String (List ℚ)
  cacheGetRes : Option (String × List SourceInfo)
  colRes : Except String Collection
  scoresFn : List (List String) → List String → List ℚ
  modelOutcome : String → Except String String

/-- Observable outcome of one `rag_query` call: the returned pair, the
argument of the `semantic_cache.set` call when one is made, and the service
state and `_last_working_model` left behind. -/
structure RagOutcome where
  response : String
  sources : List SourceInfo
  cacheWrite : Option (List ℚ × String × List SourceInfo)
  ragState : RAGState
  lastWorking : Option String
deriving DecidableEq, Repr

/-- The `rag_query` method: embed the query once; on cache hit return the
cached pair; otherwise hybrid search with `top_k=10` and the precomputed
embedding, rerank to `topK`, build the context; a non-empty context is
answered by `generate_response` and cached when `use_cache` holds, an empty
context yields the fixed insufficient-knowledge message with empty sources
and no cache write.  A raised embedding error is caught by the top-level
`except` and converted into the fixed apology pair.  Loading of the custom
system prompt only alters the prompt text, which the abstract model outcome
already ranges over, so it is not reproduced. -/
def ragQuery (env : RagQueryEnv) (query : String) (topK : Nat) (useCache : Bool)
    (st : RAGState) (lastWorking : Option String) (now : ℚ) : RagOutcome :=
  match env.embedRes with
  | .error _ => ⟨pipelineErrorMsg, [], none, st, lastWorking⟩
  | .ok qe =>
    match (if useCache then env.cacheGetRes else none) with
    | some (r, s) => ⟨r, s, none, st, lastWorking⟩
    | none =>
      let searched := hybridSearch env.scoresFn env.colRes st now query 10 none (1/2)
        (some qe) (Except.ok qe)
      let topResults := rerankResults searched.1 topK
      let built := buildContext topResults
      if built.1 ≠ "" then
        let generated := generateResponse env.modelOutcome lastWorking
        ⟨generated.1, built.2,
         if useCache then some (qe, generated.1, built.2) else none,
         searched.2, generated.2⟩
      else
        ⟨insufficientMsg, [], none, searched.2, lastWorking⟩

/-! ### Helper lemmas -/

/-- Congruence for `List.any` under pointwise equality on members. -/
theorem any_congr_mem {α : Type} {p q : α → Bool} :
    ∀ (l : List α), (∀ a ∈ l, p a = q a) → l.any p = l.any q
  | [], _ => rfl
  | a :: l, h => by
    simp only [List.any_cons]
    rw [h a (List.mem_cons_self a l), any_congr_mem l fun b hb => h b (List.mem_cons_of_mem a hb)]

/-- Reduction of `Option.orElse` on a `some` first argument. -/
theorem some_orElse_fn {α : Type} (a : α) (f : Unit → Option α) :
    (some a).orElse f = some a := rfl

/-- On a keyword whose first and last characters are word characters, the
word-boundary pattern match of `check_sos_keywords` at a position coincides
with the whole-word occurrence predicate at that position. -/
theorem reMatch_eq_wholeWord (kw text : List Char) (i : Nat)
    (hne : kw ≠ []) (hh : optIsWord kw.head? = true)
    (hl : optIsWord kw.getLast? = true) :
    reMatchWWAt kw text i = wholeWordAt kw text i := by
  obtain ⟨c, hc⟩ : ∃ c, kw.head? = some c := by
    cases kw with
    | nil => exact absurd rfl hne
    | cons c kw' => exact ⟨c, rfl⟩
  obtain ⟨d, hd⟩ : ∃ d, kw.getLast? = some d := by
    cases hgl : kw.getLast? with
    | none => rw [hgl] at hl; exact absurd hl (by simp [optIsWord])
    | some d => exact ⟨d, rfl⟩
  rw [hc] at hh
  rw [hd] at hl
  unfold reMatchWWAt wholeWordAt
  rw [hc, hd]
  cases hpre : kw.isPrefixOf (text.drop i)
  · simp
  · simp only [Bool.true_and, some_orElse_fn, wordBoundary]
    rw [show optIsWord (some c) = true from hh, show optIsWord (some d) = true from hl]
    cases optIsWord (text.take i).getLast? <;>
      cases optIsWord ((text.drop i).drop kw.length).head? <;> rfl

/-- Search-version of the previous lemma: for keywords with word first and
last characters, the regex search equals whole-word containment. -/
theorem reSearch_eq_containsWW (kw text : List Char)
    (hne : kw ≠ []) (hh : optIsWord kw.head? = true)
    (hl : optIsWord kw.getLast? = true) :
    reSearchWW kw text = containsWholeWord kw text :=
  any_congr_mem _ fun i _ => reMatch_eq_wholeWord kw text i hne hh hl

/-! ### Claim C1 -/

/-- C1 counterexample: for the keyword list `["sad."]` and the text
`"i am sad."`, the text contains the keyword as a whole word (the
occurrence is preceded by a space and followed by the end of the text), yet
`check_sos_keywords` returns `False`: the trailing `\b` of the compiled
pattern cannot match after the non-word character `'.'` at the end of the
text.  This refutes the claimed iff for arbitrary keyword lists. -/
theorem check_sos_counterexample :
    check_sos_keywords "i am sad." ["sad."] = false ∧
    checkSosSpec "i am sad." ["sad."] = true := by
  constructor
  · decide
  · decide

/-- C1 (amended): for every keyword list whose keywords, after lowercasing,
are non-empty and begin and end with a word character (true of all default
SOS keywords), `check_sos_keywords(T, K)` returns true iff the lowercased
text contains some lowercased keyword as a whole word, i.e. an occurrence
flanked on both sides by a non-word character or an end of the text;
occurrences embedded in longer words do not match. -/
theorem check_sos_keywords_whole_word (text : String) (keywords : List String)
    (h : ∀ kw ∈ keywords, lowerChars kw.data ≠ [] ∧
         optIsWord (lowerChars kw.data).head? = true ∧
         optIsWord (lowerChars kw.data).getLast? = true) :
    check_sos_keywords text keywords = checkSosSpec text keywords := by
  unfold check_sos_keywords checkSosSpec
  exact any_congr_mem _ fun kw hkw =>
    reSearch_eq_containsWW _ _ (h kw hkw).1 (h kw hkw).2.1 (h kw hkw).2.2

/-- C1 witness: the amended theorem applied to the text
`"tôi muốn tự tử!"` and the keywords `["tự tử", "buồn"]`, whose hypotheses
hold by evaluation; the whole-word match through the surrounding space and
`'!'` is detected. -/
theorem check_sos_keywords_whole_word_witness :
    (∀ kw ∈ ["tự tử", "buồn"], lowerChars kw.data ≠ [] ∧
       optIsWord (lowerChars kw.data).head? = true ∧
       optIsWord (lowerChars kw.data).getLast? = true) ∧
    check_sos_keywords "tôi muốn tự tử!" ["tự tử", "buồn"] =
      checkSosSpec "tôi muốn tự tử!" ["tự tử", "buồn"] ∧
    check_sos_keywords "tôi muốn tự tử!" ["tự tử", "buồn"] = true :=
  ⟨by decide, check_sos_keywords_whole_word _ _ (by decide), by decide⟩

/-! ### Claim C8 -/

/-- The accumulation loop of `build_context` produces the indexed block list
and the sources list of the two-map specification rendering. -/
theorem buildContextAux_spec :
    ∀ (rs : List SearchResult) (i : Nat),
      buildContextAux i rs =
        ((rs.enumFrom i).map fun p => contextBlock p.1 p.2, rs.map sourceOf)
  | [], _ => rfl
  | r :: rest, i => by
    simp only [buildContextAux, buildContextAux_spec rest (i + 1), List.enumFrom_cons,
      List.map_cons]

/-- C8 counterexample: on the single result with content `"hello"`, source
`"doc1"` and page 3, `build_context` does not emit the claimed block
`"[1] hello\n(Source: doc1, page 3)"`: the code's labels are the Vietnamese
`Nguồn` and `trang`, so the produced pair differs from the claimed one. -/
theorem build_context_counterexample :
    buildContext [⟨"hello", "doc1", 3, 0, none⟩] ≠
      buildContextSpecEN [⟨"hello", "doc1", 3, 0, none⟩] := by
  decide

/-- C8 (amended): for every list of ranked results, `build_context` emits
for the `i`-th result (1-based) the block
`"[i] <chunk text>\n(Nguồn: <source>, trang <page>)"`, joins the blocks
with blank lines, and builds a parallel sources list whose
`content_snippet` is the chunk text unchanged when its length is at most
200 characters and otherwise its first 200 characters followed by an
ellipsis marker; the empty input yields the empty string and the empty
list. -/
theorem build_context_spec (results : List SearchResult) :
    buildContext results = buildContextSpecVN results := by
  cases results with
  | nil => rfl
  | cons r rest =>
    simp only [buildContext, List.isEmpty_cons, Bool.false_eq_true, if_false,
      buildContextAux_spec, buildContextSpecVN]

/-! ### Claim C6 -/

/-- C6: `semantic_cache.set(e, r, s)` followed by `semantic_cache.get(e')`
within the TTL returns exactly `(r, s)` whenever `e'` is bit-identical to
`e`, and the cache key is a deterministic function of the embedding alone:
bit-identical embeddings map to the same key. -/
theorem semantic_cache_round_trip (r : RedisStore) (e e' : List ℚ)
    (response : String) (sources : List SourceInfo) (now now' : ℚ)
    (he : e' = e) (hTtl : now' < now + semanticCacheTTL) :
    semanticCacheGet (semanticCacheSet r e response sources now) e' now' =
      some (response, sources) ∧
    generateCacheKey e' = generateCacheKey e := by
  subst he
  refine ⟨?_, rfl⟩
  unfold semanticCacheGet semanticCacheSet
  rw [if_pos rfl]
  simp only []
  rw [if_pos hTtl]

/-- C6 witness: the round trip at the embedding `[3/2, -1/4]`, an empty
store, write time 0 and read time 1800 (within the 3600-second TTL). -/
theorem semantic_cache_round_trip_witness :
    semanticCacheGet
        (semanticCacheSet (fun _ => none) [3/2, -1/4] "một câu trả lời"
          [⟨"doc1", 3, "đoạn trích"⟩] 0)
        [3/2, -1/4] 1800 =
      some ("một câu trả lời", [⟨"doc1", 3, "đoạn trích"⟩]) ∧
    generateCacheKey [3/2, -1/4] = generateCacheKey [3/2, -1/4] :=
  semantic_cache_round_trip (fun _ => none) [3/2, -1/4] [3/2, -1/4]
    "một câu trả lời" [⟨"doc1", 3, "đoạn trích"⟩] 0 1800 rfl
    (by norm_num [semanticCacheTTL])

/-! ### Claims C7 and C10 -/

/-- C7: while the cache is valid (two access times within the TTL of the
cached timestamp) `_get_bm25_index` returns the identical cached index,
documents and metadatas on both calls — for every collection handle and
filter, hence without consulting the document store — and leaves the state
untouched; after `invalidate_bm25_cache` the next call takes the full
rebuild path against the store. -/
theorem bm25_cache_idempotent (st : RAGState) (idx : List (List String))
    (t0 now1 now2 : ℚ) (col1 col2 col3 : Collection) (f1 f2 f3 : MFilter)
    (hc : st.bm25Cache = some idx) (ht : st.bm25CacheTime = some t0)
    (h1 : now1 - t0 < bm25CacheTTL) (h2 : now2 - t0 < bm25CacheTTL) :
    getBM25Index col1 f1 st now1 =
      .ok ((some idx, st.corpusCache.getD [], st.corpusMetadatas.getD []), st) ∧
    getBM25Index col2 f2 st now2 =
      .ok ((some idx, st.corpusCache.getD [], st.corpusMetadatas.getD []), st) ∧
    getBM25Index col3 f3 (invalidateBM25Cache st) now1 =
      rebuildBM25 col3 f3 (invalidateBM25Cache st) now1 := by
  have hv1 : cacheValid st now1 = true := by
    unfold cacheValid
    rw [hc, ht]
    exact decide_eq_true h1
  have hv2 : cacheValid st now2 = true := by
    unfold cacheValid
    rw [hc, ht]
    exact decide_eq_true h2
  have hv3 : cacheValid (invalidateBM25Cache st) now1 = false := rfl
  refine ⟨?_, ?_, ?_⟩
  · unfold getBM25Index
    rw [hv1, if_pos rfl, hc]
  · unfold getBM25Index
    rw [hv2, if_pos rfl, hc]
  · unfold getBM25Index
    rw [hv3]
    simp only [Bool.false_eq_true, if_false]

/-- C7 witness: a state holding a cached index built at time 0, read at
times 100 and 200 against two different collection handles, and the rebuild
taken after invalidation. -/
theorem bm25_cache_idempotent_witness :
    getBM25Index ⟨fun _ => .error "down", fun _ _ _ => .error "down"⟩ none
        ⟨some [["a"]], some 0, some ["a"], some [⟨some "s", some 1⟩]⟩ 100 =
      .ok ((some [["a"]], ["a"], [⟨some "s", some 1⟩]),
           ⟨some [["a"]], some 0, some ["a"], some [⟨some "s", some 1⟩]⟩) ∧
    getBM25Index ⟨fun _ => .ok (["b"], [⟨none, none⟩]), fun _ _ _ => .ok []⟩ none
        ⟨some [["a"]], some 0, some ["a"], some [⟨some "s", some 1⟩]⟩ 200 =
      .ok ((some [["a"]], ["a"], [⟨some "s", some 1⟩]),
           ⟨some [["a"]], some 0, some ["a"], some [⟨some "s", some 1⟩]⟩) ∧
    getBM25Index ⟨fun _ => .error "down", fun _ _ _ => .error "down"⟩ none
        (invalidateBM25Cache ⟨some [["a"]], some 0, some ["a"], some [⟨some "s", some 1⟩]⟩) 100 =
      rebuildBM25 ⟨fun _ => .error "down", fun _ _ _ => .error "down"⟩ none
        (invalidateBM25Cache ⟨some [["a"]], some 0, some ["a"], some [⟨some "s", some 1⟩]⟩) 100 := by
  have h := bm25_cache_idempotent
    ⟨some [["a"]], some 0, some ["a"], some [⟨some "s", some 1⟩]⟩ [["a"]] 0 100 200
    ⟨fun _ => .error "down", fun _ _ _ => .error "down"⟩
    ⟨fun _ => .ok (["b"], [⟨none, none⟩]), fun _ _ _ => .ok []⟩
    ⟨fun _ => .error "down", fun _ _ _ => .error "down"⟩
    none none none rfl rfl (by norm_num [bm25CacheTTL]) (by norm_num [bm25CacheTTL])
  exact h

/-- C10: the cache-validity test of `_get_bm25_index` never consults the
filter argument — after a rebuild under filter `f1` at time `t0`, any call
within the TTL returns the index, documents and metadatas built under `f1`,
whatever collection handle and filter the second call passes; the filter
only takes effect on a rebuild. -/
theorem bm25_cache_ignores_filter (col : Collection) (f1 : MFilter)
    (st st1 : RAGState) (t0 t1 : ℚ) (idx : List (List String))
    (docs : List String) (metas : List Meta)
    (hv : cacheValid st t0 = false)
    (hfirst : getBM25Index col f1 st t0 = .ok ((some idx, docs, metas), st1))
    (ht : t1 - t0 < bm25CacheTTL) :
    ∀ (col2 : Collection) (f2 : MFilter),
      getBM25Index col2 f2 st1 t1 = .ok ((some idx, docs, metas), st1) := by
  intro col2 f2
  unfold getBM25Index rebuildBM25 at hfirst
  rw [hv] at hfirst
  simp only [Bool.false_eq_true, if_false] at hfirst
  cases hget : col.get f1 with
  | error e =>
    rw [hget] at hfirst
    exact absurd hfirst (by simp)
  | ok dm =>
    obtain ⟨d, m⟩ := dm
    rw [hget] at hfirst
    cases d with
    | nil => simp at hfirst
    | cons hd tl =>
      simp only [List.isEmpty_cons, Bool.false_eq_true, if_false, Except.ok.injEq,
        Prod.mk.injEq, Option.some.injEq] at hfirst
      obtain ⟨⟨hidx, hdocs, hmetas⟩, hst⟩ := hfirst
      subst hidx hdocs hmetas
      have hv2 : cacheValid st1 t1 = true := by
        rw [← hst]
        unfold cacheValid
        exact decide_eq_true ht
      unfold getBM25Index
      rw [hv2, if_pos rfl, ← hst]
      rfl

/-- C10 witness: a rebuild under no filter at time 0 from a one-chunk store,
then a read at time 100 with a category filter against a failing store
handle, still served from the cache built under the first filter. -/
theorem bm25_cache_ignores_filter_witness :
    getBM25Index ⟨fun _ => .error "down", fun _ _ _ => .error "down"⟩
        (some [("category", "a")])
        ⟨some [["x", "y"]], some 0, some ["x y"], some [⟨some "s", some 2⟩]⟩ 100 =
      .ok ((some [["x", "y"]], ["x y"], [⟨some "s", some 2⟩]),
           ⟨some [["x", "y"]], some 0, some ["x y"], some [⟨some "s", some 2⟩]⟩) :=
  bm25_cache_ignores_filter
    ⟨fun _ => .ok (["x y"], [⟨some "s", some 2⟩]), fun _ _ _ => .ok []⟩ none
    initialRAGState
    ⟨some [["x", "y"]], some 0, some ["x y"], some [⟨some "s", some 2⟩]⟩
    0 100 [["x", "y"]] ["x y"] [⟨some "s", some 2⟩]
    rfl rfl (by norm_num [bm25CacheTTL])
    ⟨fun _ => .error "down", fun _ _ _ => .error "down"⟩
    (some [("category", "a")])

/-! ### Claims C5 and C9 -/

/-- A successful model returned by the fallback loop belongs to the tried
list. -/
theorem tryModels_mem (outcome : String → Except String String) :
    ∀ (l : List String) (m t : String), tryModels outcome l = some (m, t) → m ∈ l := by
  intro l
  induction l with
  | nil => intro m t h; simp [tryModels] at h
  | cons c rest ih =>
    intro m t h
    rw [tryModels] at h
    cases ho : outcome c with
    | ok s =>
      rw [ho] at h
      simp only [Option.some.injEq, Prod.mk.injEq] at h
      rw [← h.1]
      exact List.mem_cons_self c rest
    | error e =>
      rw [ho] at h
      exact List.mem_cons_of_mem c (ih m t h)

/-- When every tried model fails, the fallback loop returns nothing. -/
theorem tryModels_none (outcome : String → Except String String) :
    ∀ (l : List String), (∀ c ∈ l, ∃ e, outcome c = .error e) →
      tryModels outcome l = none
  | [], _ => rfl
  | c :: rest, h => by
    obtain ⟨e, he⟩ := h c (List.mem_cons_self c rest)
    unfold tryModels
    rw [he]
    exact tryModels_none outcome rest fun d hd => h d (List.mem_cons_of_mem c hd)

/-- When every tried model fails to connect, the streaming fallback loop
returns nothing. -/
theorem tryStreamModels_none (outcome : String → Except String (List String)) :
    ∀ (l : List String), (∀ c ∈ l, ∃ e, outcome c = .error e) →
      tryStreamModels outcome l = none
  | [], _ => rfl
  | c :: rest, h => by
    obtain ⟨e, he⟩ := h c (List.mem_cons_self c rest)
    unfold tryStreamModels
    rw [he]
    exact tryStreamModels_none outcome rest fun d hd => h d (List.mem_cons_of_mem c hd)

/-- Every model in the reordered attempt list is a candidate model. -/
theorem mem_of_mem_prioritize {lastWorking : Option String} {cands : List String}
    {m : String} (h : m ∈ prioritize lastWorking cands) : m ∈ cands := by
  cases lastWorking with
  | none => exact h
  | some x =>
    simp only [prioritize] at h
    by_cases hx : x ∈ cands
    · rw [if_pos hx] at h
      cases h with
      | head => exact hx
      | tail _ h' => exact List.mem_of_mem_erase h'
    · rwa [if_neg hx] at h

/-- C5: `generate_response` attempts the candidate models in priority order
with the remembered last-working model moved to the front; a success is
remembered and moved to the front of the next call's attempt order; total
failure returns the fixed apology (leaving the memory unchanged) rather
than raising; and the streaming variant yields the apology as its single
fragment when no model can be connected. -/
theorem generate_response_fallback (outcome : String → Except String String)
    (streamOutcome : String → Except String (List String))
    (lastWorking : Option String) (m t : String) :
    (∀ mw ∈ candidateModels,
       prioritize (some mw) candidateModels = mw :: candidateModels.erase mw) ∧
    ((∀ c ∈ candidateModels, ∃ e, outcome c = .error e) →
       generateResponse outcome lastWorking = (apologyMsg, lastWorking)) ∧
    (tryModels outcome (prioritize lastWorking candidateModels) = some (m, t) →
       (generateResponse outcome lastWorking).2 = some m ∧
       prioritize (generateResponse outcome lastWorking).2 candidateModels =
         m :: candidateModels.erase m) ∧
    ((∀ c ∈ streamCandidateModels, ∃ e, streamOutcome c = .error e) →
       generateResponseStream streamOutcome = [apologyMsg]) := by
  refine ⟨?_, ?_, ?_, ?_⟩
  · intro mw hmw
    simp only [prioritize]
    rw [if_pos hmw]
  · intro hfail
    unfold generateResponse
    rw [tryModels_none outcome (prioritize lastWorking candidateModels)
      fun c hc => hfail c (mem_of_mem_prioritize hc)]
  · intro hsucc
    have hm : m ∈ candidateModels :=
      mem_of_mem_prioritize (tryModels_mem outcome _ m t hsucc)
    constructor
    · unfold generateResponse
      rw [hsucc]
    · unfold generateResponse
      rw [hsucc]
      show prioritize (some m) candidateModels = m :: candidateModels.erase m
      simp only [prioritize]
      rw [if_pos hm]
  · intro hfail
    unfold generateResponseStream
    rw [tryStreamModels_none streamOutcome streamCandidateModels hfail]

/-- C5 witness: a call against an outcome where the remembered model
`gemini-1.5-flash` and the top candidate fail and `gemini-flash-latest`
succeeds — the success is remembered and moved to the front of the next
attempt order — plus the total-failure and streaming-failure degradations. -/
theorem generate_response_fallback_witness :
    prioritize (some "gemini-pro") candidateModels =
      "gemini-pro" :: candidateModels.erase "gemini-pro" ∧
    generateResponse (fun _ => .error "503") none = (apologyMsg, none) ∧
    ((generateResponse
        (fun c => if c = "gemini-flash-latest" then .ok "được rồi" else .error "quota")
        (some "gemini-1.5-flash")).2 = some "gemini-flash-latest" ∧
     prioritize (generateResponse
        (fun c => if c = "gemini-flash-latest" then .ok "được rồi" else .error "quota")
        (some "gemini-1.5-flash")).2 candidateModels =
       "gemini-flash-latest" :: candidateModels.erase "gemini-flash-latest") ∧
    generateResponseStream (fun _ => .error "404") = [apologyMsg] :=
  ⟨(generate_response_fallback (fun _ => .error "503") (fun _ => .error "404")
      none "m" "t").1 "gemini-pro" (by decide),
   (generate_response_fallback (fun _ => .error "503") (fun _ => .error "404")
      none "m" "t").2.1 (fun c _ => ⟨"503", rfl⟩),
   (generate_response_fallback
      (fun c => if c = "gemini-flash-latest" then .ok "được rồi" else .error "quota")
      (fun _ => .error "404") (some "gemini-1.5-flash")
      "gemini-flash-latest" "được rồi").2.2.1 rfl,
   (generate_response_fallback (fun _ => .error "503") (fun _ => .error "404")
      none "m" "t").2.2.2 (fun c _ => ⟨"404", rfl⟩)⟩

/-- C9 counterexample: a streaming call whose model yields the fragment
`"<p>hello"` passes it through verbatim — the fragment still contains an
HTML-like tag by the code's own second sanitization pattern, the very tag
`stripTags` would have removed — so the fragments yielded by
`generate_response_stream` are not post-processed. -/
theorem stream_not_sanitized_counterexample :
    generateResponseStream (fun _ => .ok ["<p>hello"]) = ["<p>hello"] ∧
    containsTag "<p>hello" = true ∧
    stripTags "<p>hello" = "hello" := by
  refine ⟨by decide, by decide, by decide⟩

/-- C9 (amended): the non-streaming `generate_response` post-processes every
successful model output with the two HTML-tag-removal substitutions and
`strip` (the returned text is `stripTags` of the raw output), while the
fragments yielded by `generate_response_stream` are passed through with no
tag removal (only empty chunks are skipped). -/
theorem generate_response_sanitized (outcome : String → Except String String)
    (lastWorking : Option String) (m t : String)
    (h : tryModels outcome (prioritize lastWorking candidateModels) = some (m, t)) :
    (generateResponse outcome lastWorking).1 = stripTags t ∧
    ∀ (streamOutcome : String → Except String (List String)) (frags : List String),
      tryStreamModels streamOutcome streamCandidateModels = some frags →
      generateResponseStream streamOutcome = frags.filter (fun s => s ≠ "") := by
  constructor
  · unfold generateResponse
    rw [h]
  · intro streamOutcome frags hs
    unfold generateResponseStream
    rw [hs]

/-- C9 witness: the amended theorem at a model output carrying a
`<blockquote>` tag, which the non-streaming path strips, while a streaming
call passes its fragments through unchanged. -/
theorem generate_response_sanitized_witness :
    ((generateResponse (fun _ => .ok "<blockquote>xin chào</blockquote>") none).1 =
       stripTags "<blockquote>xin chào</blockquote>" ∧
     ∀ (streamOutcome : String → Except String (List String)) (frags : List String),
       tryStreamModels streamOutcome streamCandidateModels = some frags →
       generateResponseStream streamOutcome = frags.filter (fun s => s ≠ "")) ∧
    stripTags "<blockquote>xin chào</blockquote>" = "xin chào" :=
  ⟨generate_response_sanitized (fun _ => .ok "<blockquote>xin chào</blockquote>")
     none "gemini-2.0-flash-exp" "<blockquote>xin chào</blockquote>" rfl,
   by decide⟩

/-! ### Claim C3 -/

/-- C3: when retrieval produces no ranked results (hence an empty context),
`rag_query` returns the fixed insufficient-knowledge message with an empty
sources list and performs no cache write, even with `use_cache = True`. -/
theorem rag_query_empty_context (env : RagQueryEnv) (query : String) (topK : Nat)
    (st : RAGState) (lastWorking : Option String) (now : ℚ) (qe : List ℚ)
    (hemb : env.embedRes = .ok qe)
    (hmiss : env.cacheGetRes = none)
    (hsearch : (hybridSearch env.scoresFn env.colRes st now query 10 none (1/2)
        (some qe) (Except.ok qe)).1 = []) :
    (ragQuery env query topK true st lastWorking now).response = insufficientMsg ∧
    (ragQuery env query topK true st lastWorking now).sources = [] ∧
    (ragQuery env query topK true st lastWorking now).cacheWrite = none := by
  have key : ragQuery env query topK true st lastWorking now =
      ⟨insufficientMsg, [], none,
       (hybridSearch env.scoresFn env.colRes st now query 10 none (1/2)
          (some qe) (Except.ok qe)).2, lastWorking⟩ := by
    unfold ragQuery
    rw [hemb]
    simp only [if_true, hmiss, hsearch, rerankResults, List.isEmpty_nil, if_true,
      List.take_nil, buildContext, ne_eq, not_true_eq_false, if_false]
  rw [key]
  exact ⟨rfl, rfl, rfl⟩

/-- C3 witness: a miss on the cache over an empty document store (the
collection returns no chunks, so hybrid search ranks nothing). -/
theorem rag_query_empty_context_witness :
    (ragQuery ⟨.ok [1], none, .ok ⟨fun _ => .ok ([], []), fun _ _ _ => .ok []⟩,
        fun _ _ => [], fun _ => .ok "câu trả lời"⟩
      "một câu hỏi" 3 true initialRAGState none 0).response = insufficientMsg ∧
    (ragQuery ⟨.ok [1], none, .ok ⟨fun _ => .ok ([], []), fun _ _ _ => .ok []⟩,
        fun _ _ => [], fun _ => .ok "câu trả lời"⟩
      "một câu hỏi" 3 true initialRAGState none 0).sources = [] ∧
    (ragQuery ⟨.ok [1], none, .ok ⟨fun _ => .ok ([], []), fun _ _ _ => .ok []⟩,
        fun _ _ => [], fun _ => .ok "câu trả lời"⟩
      "một câu hỏi" 3 true initialRAGState none 0).cacheWrite = none :=
  rag_query_empty_context
    ⟨.ok [1], none, .ok ⟨fun _ => .ok ([], []), fun _ _ _ => .ok []⟩,
     fun _ _ => [], fun _ => .ok "câu trả lời"⟩
    "một câu hỏi" 3 initialRAGState none 0 [1] rfl rfl rfl

/-! ### Claim C4 -/

/-- C4: any document-store error raised during `hybrid_search` — a failing
`get_collection`, a failing corpus fetch inside the index rebuild, or a
failing vector query — is caught and turned into the empty result list,
never propagated. -/
theorem hybrid_search_store_error
    (scoresFn : List (List String) → List String → List ℚ)
    (genEmbed : Except String (List ℚ)) (st : RAGState) (now : ℚ)
    (query : String) (topK : Nat) (filt : MFilter) (alpha : ℚ)
    (qe : Option (List ℚ)) (e e' : String) (col : Collection) :
    (hybridSearch scoresFn (.error e) st now query topK filt alpha qe genEmbed).1 = [] ∧
    (cacheValid st now = false → (∀ f, col.get f = .error e') →
      (hybridSearch scoresFn (.ok col) st now query topK filt alpha qe genEmbed).1 = []) ∧
    ((∀ emb n f, col.query emb n f = .error e') →
      (hybridSearch scoresFn (.ok col) st now query topK filt alpha qe genEmbed).1 = []) := by
  refine ⟨rfl, ?_, ?_⟩
  · intro hv hget
    show (hybridSearchOk scoresFn col st now query topK filt alpha qe genEmbed).1 = []
    unfold hybridSearchOk getBM25Index rebuildBM25
    rw [hv]
    simp only [Bool.false_eq_true, if_false, hget filt]
  · intro hq
    show (hybridSearchOk scoresFn col st now query topK filt alpha qe genEmbed).1 = []
    unfold hybridSearchOk
    cases hbm : getBM25Index col filt st now with
    | error e2 => rfl
    | ok res =>
      obtain ⟨⟨bm25Opt, documents, metadatas⟩, st1⟩ := res
      cases bm25Opt with
      | none => rfl
      | some bm25 =>
        by_cases hde : documents.isEmpty
        · simp [hde]
        · by_cases hse : (scoresFn bm25 (pySplit (strLower query))).isEmpty
          · simp [hde, hse]
          · cases qe with
            | some emb => simp [hde, hse, hq]
            | none =>
              cases genEmbed with
              | error e3 => simp [hde, hse]
              | ok emb => simp [hde, hse, hq]

/-- C4 witness: a failing collection handle, a failing corpus fetch on an
invalid cache, and a failing vector query each produce the empty result
list. -/
theorem hybrid_search_store_error_witness :
    (hybridSearch (fun _ _ => [1]) (.error "connect failed") initialRAGState 0
      "câu hỏi" 10 none (1/2) (some [1]) (.ok [1])).1 = [] ∧
    (hybridSearch (fun _ _ => [1])
      (.ok ⟨fun _ => .error "get failed", fun _ _ _ => .ok []⟩) initialRAGState 0
      "câu hỏi" 10 none (1/2) (some [1]) (.ok [1])).1 = [] ∧
    (hybridSearch (fun _ _ => [1])
      (.ok ⟨fun _ => .ok (["tài liệu"], [⟨some "s", some 1⟩]),
            fun _ _ _ => .error "query failed"⟩) initialRAGState 0
      "câu hỏi" 10 none (1/2) (some [1]) (.ok [1])).1 = [] := by
  refine ⟨?_, ?_, ?_⟩
  · exact (hybrid_search_store_error (fun _ _ => [1]) (.ok [1]) initialRAGState 0
      "câu hỏi" 10 none (1/2) (some [1]) "connect failed" "x"
      ⟨fun _ => .ok ([], []), fun _ _ _ => .ok []⟩).1
  · exact (hybrid_search_store_error (fun _ _ => [1]) (.ok [1]) initialRAGState 0
      "câu hỏi" 10 none (1/2) (some [1]) "x" "get failed"
      ⟨fun _ => .error "get failed", fun _ _ _ => .ok []⟩).2.1 rfl (fun _ => rfl)
  · exact (hybrid_search_store_error (fun _ _ => [1]) (.ok [1]) initialRAGState 0
      "câu hỏi" 10 none (1/2) (some [1]) "x" "query failed"
      ⟨fun _ => .ok (["tài liệu"], [⟨some "s", some 1⟩]),
       fun _ _ _ => .error "query failed"⟩).2.2 (fun _ _ _ => rfl)

/-! ### Claim C2 -/

/-- Lookup misses every list whose keys avoid `d`. -/
theorem lookupSim_eq_none (d : String) :
    ∀ (vrs : List (String × ℚ)), d ∉ vrs.map Prod.fst → lookupSim vrs d = none
  | [], _ => rfl
  | p :: t, h => by
    rw [List.map_cons] at h
    unfold lookupSim
    rw [if_neg fun hd : d = p.1 =>
        h (by rw [hd]; exact List.mem_cons_self p.1 (t.map Prod.fst)),
      lookupSim_eq_none d t fun hm => h (List.mem_cons_of_mem p.1 hm)]

/-- Building the Python dict over entries whose keys avoid `d` leaves the
value at `d` unchanged. -/
theorem foldl_vecMapStep_none (d : String) :
    ∀ (vrs : List (String × ℚ)) (m : String → ℚ),
      lookupSim vrs d = none → vrs.foldl vecMapStep m d = m d
  | [], _, _ => rfl
  | p :: t, m, h => by
    rw [List.foldl_cons]
    unfold lookupSim at h
    by_cases hd : d = p.1
    · rw [if_pos hd] at h
      exact absurd h (by simp)
    · rw [if_neg hd] at h
      rw [foldl_vecMapStep_none d t (vecMapStep m p) h]
      unfold vecMapStep
      rw [if_neg hd]

/-- Under distinct keys, the dict built by forward iteration with overwrite
agrees with first-match lookup. -/
theorem foldl_vecMapStep_lookup (d : String) :
    ∀ (vrs : List (String × ℚ)) (m : String → ℚ),
      (vrs.map Prod.fst).Nodup →
      vrs.foldl vecMapStep m d =
        (match lookupSim vrs d with
         | some dist => 1 - dist / 2
         | none => m d)
  | [], _, _ => rfl
  | p :: t, m, hnd => by
    rw [List.map_cons, List.nodup_cons] at hnd
    rw [List.foldl_cons]
    unfold lookupSim
    by_cases hd : d = p.1
    · rw [if_pos hd]
      have hnone : lookupSim t d = none :=
        lookupSim_eq_none d t (hd ▸ hnd.1)
      rw [foldl_vecMapStep_none d t (vecMapStep m p) hnone]
      unfold vecMapStep
      rw [if_pos hd]
    · rw [if_neg hd, foldl_vecMapStep_lookup d t (vecMapStep m p) hnd.2]
      cases lookupSim t d with
      | some dist => rfl
      | none =>
        unfold vecMapStep
        rw [if_neg hd]

/-- Under distinct result keys, the code's `vector_distance_map` equals the
specification's vector-similarity assignment. -/
theorem buildVecMap_eq_vecSimSpec (vrs : List (String × ℚ))
    (hnd : (vrs.map Prod.fst).Nodup) : buildVecMap vrs = vecSimSpec vrs := by
  funext d
  unfold buildVecMap vecSimSpec
  rw [foldl_vecMapStep_lookup d vrs (fun _ => 0) hnd]

/-- C2: on a non-empty corpus, whenever the index fetch, the BM25 scoring
and the vector query succeed, `hybrid_search` returns exactly the claimed
ranking: every corpus chunk scored with `alpha * vector_similarity +
(1 - alpha) * lexical_similarity` — lexical scores divided by their maximum
(a zero maximum replaced by 1), vector similarity `1 - distance/2` for
chunks in the vector result set and 0 elsewhere — sorted descending by
fused score and truncated to `topK`.  The hypotheses ask for distinct
vector-result documents (the store returns each chunk once) and a
non-negative maximal BM25 score (true of `BM25Okapi`); the zero-maximum
guards of code (`max > 0`) and claim (`max = 0`) agree exactly on
non-negative scores. -/
theorem hybrid_search_matches_spec
    (scoresFn : List (List String) → List String → List ℚ)
    (genEmbed : Except String (List ℚ)) (col : Collection)
    (st st1 : RAGState) (now : ℚ) (query : String) (topK : Nat) (filt : MFilter)
    (alpha : ℚ) (qe : List ℚ) (bm25 : List (List String))
    (documents : List String) (metadatas : List Meta) (vrs : List (String × ℚ))
    (hbm : getBM25Index col filt st now = .ok ((some bm25, documents, metadatas), st1))
    (hne : documents ≠ [])
    (hsne : scoresFn bm25 (pySplit (strLower query)) ≠ [])
    (hq : col.query qe (min (topK * 2) documents.length) filt = .ok vrs)
    (hnd : (vrs.map Prod.fst).Nodup)
    (hmax : 0 ≤ pyMax (scoresFn bm25 (pySplit (strLower query)))) :
    hybridSearch scoresFn (.ok col) st now query topK filt alpha (some qe) genEmbed =
      (hybridSearchSpec documents metadatas (scoresFn bm25 (pySplit (strLower query)))
        vrs alpha topK, st1) := by
  have hdenom : (if 0 < pyMax (scoresFn bm25 (pySplit (strLower query))) then
        pyMax (scoresFn bm25 (pySplit (strLower query))) else 1) =
      (if pyMax (scoresFn bm25 (pySplit (strLower query))) = 0 then 1 else
        pyMax (scoresFn bm25 (pySplit (strLower query)))) := by
    rcases lt_or_eq_of_le hmax with hpos | hzero
    · rw [if_pos hpos, if_neg (ne_of_gt hpos)]
    · rw [if_neg (by rw [← hzero]; exact lt_irrefl 0), if_pos hzero.symm]
  show hybridSearchOk scoresFn col st now query topK filt alpha (some qe) genEmbed = _
  unfold hybridSearchOk
  rw [hbm]
  simp only [List.isEmpty_eq_false.mpr hne, Bool.false_eq_true, if_false,
    List.isEmpty_eq_false.mpr hsne, hq]
  rw [hdenom, buildVecMap_eq_vecSimSpec vrs hnd]
  rfl

/-- C2 witness: a two-chunk corpus where the vector query returns only the
second chunk; the fused ranking places the vector-matched chunk first. -/
theorem hybrid_search_matches_spec_witness :
    hybridSearch (fun _ _ => [2, 1])
      (.ok ⟨fun _ => .ok (["an toàn tâm lý", "kỹ thuật thở"], [⟨some "doc1", some 3⟩, ⟨some "doc2", some 5⟩]),
            fun _ _ _ => .ok [("kỹ thuật thở", 1/4)]⟩)
      initialRAGState 0 "thở" 2 none (1/2) (some [1, 0]) (.ok [1, 0]) =
      (hybridSearchSpec ["an toàn tâm lý", "kỹ thuật thở"]
        [⟨some "doc1", some 3⟩, ⟨some "doc2", some 5⟩] [2, 1]
        [("kỹ thuật thở", 1/4)] (1/2) 2,
       ⟨some [["an", "toàn", "tâm", "lý"], ["kỹ", "thuật", "thở"]], some 0,
        some ["an toàn tâm lý", "kỹ thuật thở"],
        some [⟨some "doc1", some 3⟩, ⟨some "doc2", some 5⟩]⟩) :=
  hybrid_search_matches_spec (fun _ _ => [2, 1]) (.ok [1, 0])
    ⟨fun _ => .ok (["an toàn tâm lý", "kỹ thuật thở"], [⟨some "doc1", some 3⟩, ⟨some "doc2", some 5⟩]),
     fun _ _ _ => .ok [("kỹ thuật thở", 1/4)]⟩
    initialRAGState
    ⟨some [["an", "toàn", "tâm", "lý"], ["kỹ", "thuật", "thở"]], some 0,
     some ["an toàn tâm lý", "kỹ thuật thở"],
     some [⟨some "doc1", some 3⟩, ⟨some "doc2", some 5⟩]⟩
    0 "thở" 2 none (1/2) [1, 0] [["an", "toàn", "tâm", "lý"], ["kỹ", "thuật", "thở"]]
    ["an toàn tâm lý", "kỹ thuật thở"] [⟨some "doc1", some 3⟩, ⟨some "doc2", some 5⟩]
    [("kỹ thuật thở", 1/4)]
    rfl (by decide) (by decide) rfl (by decide) (by norm_num [pyMax])

end ChatbotRag
